import Mathlib

set_option maxHeartbeats 1000000

/-! Shallow embedding of the magic-scanner client code (src/services/api.js,
the CameraScreen and ScanResultsScreen components) together with a model of
the backend card-recognition pipeline, which the repository snapshot only
documents (its README describes main.py, card_detection.py and
card_matching.py, none of which are present under src/); the pipeline model
is built from the documented contract. -/

/-! ## src/services/api.js -/

/-- Parsed JSON body of a `/scan` response as consumed by `scanCards`
(src/services/api.js): the `success` flag, the optional `message` used
when the scan failed, and the scan counts. -/
structure ScanBody where
  success : Bool
  message : Option String
  cards_found : Nat
  cards_matched : Nat
  deriving DecidableEq

/-- Outcome of the `fetch` call inside `scanCards`: either an HTTP response
(with its `ok` flag, status and parsed JSON body) or a thrown network or
timeout error. -/
inductive ScanFetchOutcome where
  | response (ok : Bool) (status : Nat) (body : ScanBody)
  | networkFailure
  | timedOut
  deriving DecidableEq

/-- Errors thrown by `scanCards` (src/services/api.js lines 65-91): an HTTP
error for a non-ok response, a scan failure carrying the body message for
success=false, and the rewritten network and timeout messages from the
catch block. -/
inductive ApiError where
  | httpStatus (status : Nat)
  | scanFailed (message : Option String)
  | network
  | timeout
  deriving DecidableEq

/-- Embedding of `scanCards` (src/services/api.js lines 34-91): throw when
the response is not ok, throw when the parsed body has success=false,
otherwise return the parsed body unchanged; thrown fetch errors are
re-thrown with rewritten messages by the catch block. -/
def scanCards : ScanFetchOutcome → Except ApiError ScanBody
  | .response ok status body =>
      if ok = false then .error (.httpStatus status)
      else if body.success = false then .error (.scanFailed body.message)
      else .ok body
  | .networkFailure => .error .network
  | .timedOut => .error .timeout

/-- Whether a `scanCards` result is a success (no error thrown). -/
def scanSucceeded : Except ApiError ScanBody → Bool
  | .ok _ => true
  | .error _ => false

/-- Reachable values of the CameraScreen `scanMode` state
(src/unnamed/part_000): it is created as "default" (line 19) and the only
writes are setScanMode("default") (line 135) and setScanMode("pro")
(line 150). -/
inductive ScanModeReachable : String → Prop where
  | init : ScanModeReachable "default"
  | setDefault (s : String) : ScanModeReachable s → ScanModeReachable "default"
  | setPro (s : String) : ScanModeReachable s → ScanModeReachable "pro"

/-- Value sent as the scan_mode query parameter by `scanCards`: the
`scanMode` parameter defaults to "default" when the caller supplies none
(src/services/api.js line 34). -/
def sentScanMode (mode : Option String) : String := mode.getD "default"

/-- Request URL built by `scanCards` (src/services/api.js line 55). -/
def scanRequestUrl (apiUrl : String) (mode : Option String) : String :=
  apiUrl ++ "/scan?scan_mode=" ++ sentScanMode mode

/-- Outcome of the `fetch` call inside `testConnection`: an HTTP response
with its `ok` flag, or a thrown error (network failure, timeout). -/
inductive ConnectionOutcome where
  | response (ok : Bool)
  | thrown (message : String)
  deriving DecidableEq

/-- Embedding of `testConnection` (src/services/api.js lines 198-217):
return `response.ok`, and return false for every thrown error. -/
def testConnection : ConnectionOutcome → Bool
  | .response ok => ok
  | .thrown _ => false

/-! ## ScanResultsScreen (embedded in src/README.md lines 570-947) -/

/-- The `prices` object of a card in the scan response. -/
structure PricesView where
  usd : Option String
  usd_foil : Option String
  eur : Option String
  tix : Option String
  deriving DecidableEq

/-- A card entry of the scan response as read by ScanResultsScreen: only
`card_number`, `matched` and `confidence` are always present, the
remaining fields are optional in the response schema. -/
structure CardView where
  card_number : Nat
  matched : Bool
  confidence : Nat
  name : Option String
  set : Option String
  set_code : Option String
  rarity : Option String
  collector_number : Option String
  image_url : Option String
  scryfall_uri : Option String
  prices : Option PricesView
  deriving DecidableEq

/-- What `renderCard` emits for one card: the unmatched notice, or the
detail view with the texts actually rendered. -/
inductive RenderedCard where
  | unmatchedNotice (cardNumber : Nat)
  | details (name : String) (setLine : String) (collectorLine : Option String)
      (rarityBadge : Option String) (priceTexts : List String)
      (confidencePct : Nat) (selected : Bool)
  deriving DecidableEq

/-- The guarded price texts of `renderCard`: each of usd, eur, tix is
rendered only when present. -/
def priceTexts : Option PricesView → List String
  | none => []
  | some p =>
      (p.usd.map (fun s => "$" ++ s)).toList
        ++ (p.eur.map (fun s => "€" ++ s)).toList
        ++ (p.tix.map (fun s => s ++ " tix")).toList

/-- Embedding of `renderCard` (ScanResultsScreen, src/README.md lines
615-728). An unmatched card renders the unmatched notice. A matched card
renders its details; `image_url`, `collector_number`, `rarity` and
`prices` are guarded before use, but `card.set_code.toUpperCase()` is
evaluated unguarded (line 659), so a matched card without `set_code`
throws a TypeError, modelled as `none`. Absent `name` and `set` render as
empty text, which does not throw. -/
def renderCard (selectedCards : List Nat) (card : CardView) : Option RenderedCard :=
  if card.matched = false then
    some (.unmatchedNotice card.card_number)
  else
    match card.set_code with
    | none => none
    | some sc =>
        some (.details (card.name.getD "")
          (card.set.getD "" ++ " (" ++ sc.toUpper ++ ")")
          (card.collector_number.map (fun s => "#" ++ s))
          (card.rarity.map String.toUpper)
          (priceTexts card.prices)
          card.confidence
          (selectedCards.contains card.card_number))

/-- Embedding of `toggleCardSelection` (ScanResultsScreen, src/README.md
lines 587-593): if the list includes the card number, filter out every
occurrence, otherwise append it. -/
def toggleCardSelection (cardNumber : Nat) (prev : List Nat) : List Nat :=
  if prev.contains cardNumber then prev.filter (fun n => n != cardNumber)
  else prev ++ [cardNumber]

/-! ## Theorems about the client code -/

/-- C4: scanCards raises an error if and only if the HTTP response is not
ok or the response body has success equal to false; for every response
with ok status and success true it returns the parsed body unchanged. -/
theorem scanCards_error_iff (ok : Bool) (status : Nat) (body : ScanBody) :
    (scanSucceeded (scanCards (.response ok status body)) = false
        ↔ (ok = false ∨ body.success = false))
      ∧ (ok = true → body.success = true →
          scanCards (.response ok status body) = .ok body) := by
  cases ok <;> cases hb : body.success <;> simp [scanCards, scanSucceeded, hb]

/-- Witness for C4 at a concrete ok response with success=true. -/
theorem scanCards_error_iff_witness :
    scanCards (.response true 200 ⟨true, none, 2, 1⟩) = .ok ⟨true, none, 2, 1⟩ :=
  (scanCards_error_iff true 200 ⟨true, none, 2, 1⟩).2 rfl rfl

/-- C3: every scan mode reachable in CameraScreen is one of the two
recognized values "default" and "pro", the request URL carries it as the
scan_mode query parameter, and supplying no mode sends "default". -/
theorem scanCards_scan_mode (u s : String) (h : ScanModeReachable s) :
    scanRequestUrl u (some s) = u ++ "/scan?scan_mode=" ++ s
      ∧ (s = "default" ∨ s = "pro")
      ∧ scanRequestUrl u none = scanRequestUrl u (some "default") := by
  refine ⟨rfl, ?_, rfl⟩
  induction h with
  | init => exact Or.inl rfl
  | setDefault s _ _ => exact Or.inl rfl
  | setPro s _ _ => exact Or.inr rfl

/-- Witness for C3 at the reachable mode "pro". -/
theorem scanCards_scan_mode_witness :
    scanRequestUrl "https://api" (some "pro") = "https://api" ++ "/scan?scan_mode=" ++ "pro"
      ∧ ("pro" = "default" ∨ "pro" = "pro")
      ∧ scanRequestUrl "https://api" none = scanRequestUrl "https://api" (some "default") :=
  scanCards_scan_mode "https://api" "pro"
    (ScanModeReachable.setPro "default" ScanModeReachable.init)

/-- C10: testConnection is total and returns true exactly when the backend
root endpoint responds with ok status; every thrown error yields false. -/
theorem testConnection_total (o : ConnectionOutcome) :
    (testConnection o = true ↔ o = ConnectionOutcome.response true)
      ∧ (∀ m, testConnection (ConnectionOutcome.thrown m) = false) := by
  constructor
  · cases o with
    | response ok => cases ok <;> simp [testConnection]
    | thrown m => simp [testConnection]
  · intro m
    rfl

/-- C8: rendering a matched card succeeds exactly when set_code is
present, since card.set_code.toUpperCase() is evaluated without a guard
while the other optional fields are guarded. -/
theorem renderCard_matched_needs_set_code (sel : List Nat) (card : CardView)
    (h : card.matched = true) :
    (renderCard sel card).isSome = true ↔ card.set_code.isSome = true := by
  cases hsc : card.set_code <;> simp [renderCard, h, hsc]

/-- A concrete matched card with set_code present. -/
def sampleMatchedCard : CardView :=
  { card_number := 1, matched := true, confidence := 95,
    name := some "Lightning Bolt", set := some "Alpha", set_code := some "lea",
    rarity := some "common", collector_number := none, image_url := none,
    scryfall_uri := none, prices := none }

/-- Witness for C8 at a concrete matched card. -/
theorem renderCard_matched_needs_set_code_witness :
    (renderCard [] sampleMatchedCard).isSome = true
      ↔ sampleMatchedCard.set_code.isSome = true :=
  renderCard_matched_needs_set_code [] sampleMatchedCard rfl

/-- Bridge between the Bool-valued includes test of the source and
membership. -/
lemma contains_mem (l : List Nat) (n : Nat) : l.contains n = true ↔ n ∈ l :=
  List.elem_iff

/-- The two branches of toggleCardSelection, phrased through membership. -/
lemma toggleCardSelection_eq (n : Nat) (l : List Nat) :
    toggleCardSelection n l
      = if n ∈ l then l.filter (fun a => a != n) else l ++ [n] := by
  unfold toggleCardSelection
  by_cases hl : n ∈ l
  · rw [if_pos ((contains_mem l n).mpr hl), if_pos hl]
  · rw [if_neg (fun hc => hl ((contains_mem l n).mp hc)), if_neg hl]

/-- C9: toggleCardSelection toggles exactly the membership of the given
card number: applying it twice restores the original membership, one
application flips the membership of n and leaves every other number
unchanged, and it removes every occurrence of n when present. -/
theorem toggleCardSelection_spec (n m : Nat) (l : List Nat) :
    (n ∈ toggleCardSelection n (toggleCardSelection n l) ↔ n ∈ l)
      ∧ (m ∈ toggleCardSelection n l ↔ if m = n then n ∉ l else m ∈ l)
      ∧ ((toggleCardSelection n l).count n = if n ∈ l then 0 else l.count n + 1) := by
  by_cases hl : n ∈ l
  · have hnot : n ∉ l.filter (fun a => a != n) := by
      simp [List.mem_filter]
    have h1 : toggleCardSelection n l = l.filter (fun a => a != n) := by
      rw [toggleCardSelection_eq, if_pos hl]
    have h2 : toggleCardSelection n (toggleCardSelection n l)
        = l.filter (fun a => a != n) ++ [n] := by
      rw [h1, toggleCardSelection_eq, if_neg hnot]
    refine ⟨?_, ?_, ?_⟩
    · rw [h2]
      simp [hl]
    · rw [h1]
      by_cases hm : m = n
      · subst hm
        simp [List.mem_filter, hl]
      · simp [List.mem_filter, hm, hl]
    · rw [h1, if_pos hl]
      exact List.count_eq_zero.mpr hnot
  · have h1 : toggleCardSelection n l = l ++ [n] := by
      rw [toggleCardSelection_eq, if_neg hl]
    have h2 : toggleCardSelection n (toggleCardSelection n l)
        = (l ++ [n]).filter (fun a => a != n) := by
      rw [h1, toggleCardSelection_eq, if_pos (by simp)]
    refine ⟨?_, ?_, ?_⟩
    · rw [h2]
      simp [List.mem_filter, hl]
    · rw [h1]
      by_cases hm : m = n
      · subst hm
        simp [hl]
      · simp [hm, hl]
    · rw [h1, if_neg hl]
      simp [List.count_append]

/-! ## Card recognition pipeline, modelled from the spec

The backend responsible for the pipeline (main.py, card_detection.py,
card_matching.py of this repository) is absent from the snapshot; only the
client and the backend README are present. The definitions below are
modelled from the documented contract. -/

/-- Modelled from the spec: a Fingerprint is a fixed-length perceptual-hash
bit vector (spec data model); the backend Fingerprint Engine lives in the
absent card_matching.py. -/
abbrev Fingerprint := List Bool

/-- Modelled from the spec: Hamming distance, the count of differing bit
positions between two equal-length bit vectors. -/
def hammingDistance (x y : Fingerprint) : Nat :=
  (List.zipWith (fun a b => a != b) x y).count true

/-- Modelled from the spec: a RectifiedCard is a fixed-size pixel buffer,
the unit fed to fingerprinting. -/
structure RectifiedCard where
  pixels : List Nat
  deriving DecidableEq

/-- Modelled from the spec: the Fingerprint Engine of the absent backend
(card_matching.py). The frequency transform is abstracted to a threshold
of each reduced-grid cell against the image mean, preserving the contract
relied on by the claims: a fixed-length bit vector that is a pure function
of pixel content. -/
def fingerprintEngine (r : RectifiedCard) : Fingerprint :=
  let total := r.pixels.foldl (fun a p => a + p) 0
  r.pixels.map (fun p => decide (total ≤ r.pixels.length * p))

/-- Modelled from the spec: a ReferenceRecord of the Reference Index holds
identity, fingerprint, display name, set code and rarity. -/
structure ReferenceRecord where
  identity : Nat
  fingerprint : Fingerprint
  name : String
  setCode : String
  rarity : String
  deriving DecidableEq

/-- Modelled from the spec: the configured maximum acceptable Hamming
distance and minimum confidence of the Matcher. -/
structure MatcherConfig where
  maxDistance : Nat
  minConfidence : Nat
  deriving DecidableEq

/-- Modelled from the spec: confidence mapping of the Matcher, 100 at
distance 0, decreasing linearly to 0 at or beyond the configured maximum
acceptable distance. -/
def confidenceOfDistance (cfg : MatcherConfig) (d : Nat) : Nat :=
  if cfg.maxDistance ≤ d then 0
  else 100 * (cfg.maxDistance - d) / cfg.maxDistance

/-- Modelled from the spec: exhaustive nearest-neighbor scan of the
Reference Index, keeping the running best; a later record replaces the
best only at strictly smaller distance, so ties keep the first record in
iteration order. -/
def bestMatchAux (q : Fingerprint) :
    Option (ReferenceRecord × Nat) → List ReferenceRecord → Option (ReferenceRecord × Nat)
  | acc, [] => acc
  | none, r :: rest => bestMatchAux q (some (r, hammingDistance r.fingerprint q)) rest
  | some (b, d), r :: rest =>
      if hammingDistance r.fingerprint q < d then
        bestMatchAux q (some (r, hammingDistance r.fingerprint q)) rest
      else bestMatchAux q (some (b, d)) rest

/-- Modelled from the spec: the nearest record of the index with its
distance, none for an empty index. -/
def bestMatch (index : List ReferenceRecord) (q : Fingerprint) :
    Option (ReferenceRecord × Nat) :=
  bestMatchAux q none index

/-- Modelled from the spec: a MatchResult carries the matched flag, the
winning record when matched, the derived confidence and the distance. -/
structure MatchResult where
  matched : Bool
  record : Option ReferenceRecord
  confidence : Nat
  distance : Option Nat
  deriving DecidableEq

/-- Modelled from the spec: the Matcher resolves a fingerprint to the
nearest record, derives the confidence, and reports unmatched (with no
record) when the confidence falls below the configured minimum. -/
def matchFingerprint (cfg : MatcherConfig) (index : List ReferenceRecord)
    (q : Fingerprint) : MatchResult :=
  match bestMatch index q with
  | none => ⟨false, none, 0, none⟩
  | some (r, d) =>
      if confidenceOfDistance cfg d < cfg.minConfidence then
        ⟨false, none, confidenceOfDistance cfg d, some d⟩
      else ⟨true, some r, confidenceOfDistance cfg d, some d⟩

/-- Modelled from the spec: data returned by a successful enrichment call
(prices, canonical image, catalog URI). -/
structure EnrichmentData where
  prices : PricesView
  image_url : Option String
  scryfall_uri : Option String
  deriving DecidableEq

/-- Modelled from the spec: an EnrichedCard of the scan response; name,
set and rarity are carried from the ReferenceRecord independent of live
enrichment. -/
structure EnrichedCard where
  card_number : Nat
  matched : Bool
  confidence : Nat
  name : Option String
  set : Option String
  rarity : Option String
  image_url : Option String
  scryfall_uri : Option String
  prices : Option PricesView
  deriving DecidableEq

/-- Modelled from the spec: per-region processing of the Orchestrator.
The region at 0-based detection position i is matched and, when matched,
enriched through the enrichment oracle (none models a failed or timed-out
call); enrichment failure keeps matched=true with the static
ReferenceRecord fields and no price data. -/
def processRegion (cfg : MatcherConfig) (index : List ReferenceRecord)
    (enrich : Nat → Option EnrichmentData) (i : Nat) (q : Fingerprint) : EnrichedCard :=
  match (matchFingerprint cfg index q).record with
  | none =>
      { card_number := i + 1, matched := false,
        confidence := (matchFingerprint cfg index q).confidence,
        name := none, set := none, rarity := none,
        image_url := none, scryfall_uri := none, prices := none }
  | some r =>
      match enrich r.identity with
      | none =>
          { card_number := i + 1, matched := true,
            confidence := (matchFingerprint cfg index q).confidence,
            name := some r.name, set := some r.setCode, rarity := some r.rarity,
            image_url := none, scryfall_uri := none, prices := none }
      | some e =>
          { card_number := i + 1, matched := true,
            confidence := (matchFingerprint cfg index q).confidence,
            name := some r.name, set := some r.setCode, rarity := some r.rarity,
            image_url := e.image_url, scryfall_uri := e.scryfall_uri,
            prices := some e.prices }

/-- Modelled from the spec: the Orchestrator numbers the regions in
detection order, starting the 1-based card_number at i + 1 for counter
value i. -/
def numberCards (cfg : MatcherConfig) (index : List ReferenceRecord)
    (enrich : Nat → Option EnrichmentData) : Nat → List Fingerprint → List EnrichedCard
  | _, [] => []
  | i, q :: qs => processRegion cfg index enrich i q :: numberCards cfg index enrich (i + 1) qs

/-- Modelled from the spec: the aggregate ScanResult of one request. -/
structure ScanResult where
  success : Bool
  cards_found : Nat
  cards_matched : Nat
  cards : List EnrichedCard
  deriving DecidableEq

/-- Modelled from the spec: the Pipeline Orchestrator, taking the
fingerprints of the detected regions in detection order and assembling
one ScanResult; every region contributes one card entry, and the result
is a success regardless of per-card enrichment outcomes. -/
def runPipeline (cfg : MatcherConfig) (index : List ReferenceRecord)
    (enrich : Nat → Option EnrichmentData) (fps : List Fingerprint) : ScanResult :=
  { success := true,
    cards_found := (numberCards cfg index enrich 0 fps).length,
    cards_matched := ((numberCards cfg index enrich 0 fps).filter (fun c => c.matched)).length,
    cards := numberCards cfg index enrich 0 fps }

/-- Shared concrete matcher configuration for witnesses. -/
def demoCfg : MatcherConfig := ⟨10, 50⟩

/-- Shared concrete reference record for witnesses. -/
def demoRecord : ReferenceRecord :=
  ⟨7, [true, false], "Lightning Bolt", "lea", "common"⟩

/-- Shared concrete second record with the same fingerprint, giving a tie. -/
def demoRecord2 : ReferenceRecord :=
  ⟨8, [true, false], "Clone", "m14", "rare"⟩

/-- Shared concrete query fingerprint for witnesses. -/
def demoQuery : Fingerprint := [true, false]

/-- Shared concrete rectified card for witnesses. -/
def demoRect : RectifiedCard := ⟨[1, 2, 3, 4]⟩

/-- Shared enrichment oracle whose every call fails. -/
def noEnrichment : Nat → Option EnrichmentData := fun _ => none

/-! ## Theorems about the pipeline model -/

/-- C1: in every ScanResult, the cards sequence has length cards_found and
cards_matched is at most cards_found. -/
theorem scanResult_counts (cfg : MatcherConfig) (index : List ReferenceRecord)
    (enrich : Nat → Option EnrichmentData) (fps : List Fingerprint) :
    (runPipeline cfg index enrich fps).cards.length
        = (runPipeline cfg index enrich fps).cards_found
      ∧ (runPipeline cfg index enrich fps).cards_matched
        ≤ (runPipeline cfg index enrich fps).cards_found := by
  refine ⟨rfl, ?_⟩
  exact List.length_filter_le _ _

/-- The region counter threads through numberCards unchanged in length. -/
lemma numberCards_length (cfg : MatcherConfig) (index : List ReferenceRecord)
    (enrich : Nat → Option EnrichmentData) :
    ∀ (i : Nat) (fps : List Fingerprint),
      (numberCards cfg index enrich i fps).length = fps.length := by
  intro i fps
  induction fps generalizing i with
  | nil => rfl
  | cons q qs ih => simp [numberCards, ih]

/-- Every card produced by processRegion carries card_number i + 1. -/
lemma processRegion_card_number (cfg : MatcherConfig) (index : List ReferenceRecord)
    (enrich : Nat → Option EnrichmentData) (i : Nat) (q : Fingerprint) :
    (processRegion cfg index enrich i q).card_number = i + 1 := by
  unfold processRegion
  split
  · rfl
  · split <;> rfl

/-- The j-th card of numberCards is the j-th region processed at counter
i + j. -/
lemma numberCards_get (cfg : MatcherConfig) (index : List ReferenceRecord)
    (enrich : Nat → Option EnrichmentData) :
    ∀ (i : Nat) (fps : List Fingerprint) (j : Nat)
      (h : j < (numberCards cfg index enrich i fps).length) (h2 : j < fps.length),
      (numberCards cfg index enrich i fps).get ⟨j, h⟩
        = processRegion cfg index enrich (i + j) (fps.get ⟨j, h2⟩) := by
  intro i fps
  induction fps generalizing i with
  | nil =>
      intro j h h2
      exact absurd h2 (Nat.not_lt_zero j)
  | cons q qs ih =>
      intro j h h2
      cases j with
      | zero => rfl
      | succ k =>
          have hk : k < (numberCards cfg index enrich (i + 1) qs).length := by
            have := h
            simpa [numberCards, numberCards_length] using this
          have hk2 : k < qs.length := by
            simpa using h2
          have := ih (i + 1) k hk hk2
          simpa [numberCards, Nat.add_assoc, Nat.add_comm 1 k] using this

/-- C2: the i-th card of every pipeline result carries the 1-based
card_number i + 1, is the processed i-th detected region, and repeated
runs on the same input coincide. -/
theorem pipeline_card_numbering (cfg : MatcherConfig) (index : List ReferenceRecord)
    (enrich : Nat → Option EnrichmentData) (fps : List Fingerprint) (i : Nat)
    (h : i < (runPipeline cfg index enrich fps).cards.length) :
    ((runPipeline cfg index enrich fps).cards.get ⟨i, h⟩).card_number = i + 1
      ∧ (∃ h2 : i < fps.length,
          (runPipeline cfg index enrich fps).cards.get ⟨i, h⟩
            = processRegion cfg index enrich i (fps.get ⟨i, h2⟩))
      ∧ runPipeline cfg index enrich fps = runPipeline cfg index enrich fps := by
  have h2 : i < fps.length := by
    have := h
    simpa [runPipeline, numberCards_length] using this
  have hget : (runPipeline cfg index enrich fps).cards.get ⟨i, h⟩
      = processRegion cfg index enrich i (fps.get ⟨i, h2⟩) := by
    have := numberCards_get cfg index enrich 0 fps i h h2
    simpa [runPipeline] using this
  refine ⟨?_, ⟨h2, hget⟩, rfl⟩
  rw [hget]
  exact processRegion_card_number cfg index enrich i (fps.get ⟨i, h2⟩)

/-- Witness for C2 at a concrete one-region pipeline run. -/
theorem pipeline_card_numbering_witness :
    ((runPipeline demoCfg [demoRecord] noEnrichment [demoQuery]).cards.get
        ⟨0, by decide⟩).card_number = 0 + 1
      ∧ (∃ h2 : 0 < ([demoQuery] : List Fingerprint).length,
          (runPipeline demoCfg [demoRecord] noEnrichment [demoQuery]).cards.get
              ⟨0, by decide⟩
            = processRegion demoCfg [demoRecord] noEnrichment 0
                (([demoQuery] : List Fingerprint).get ⟨0, h2⟩))
      ∧ runPipeline demoCfg [demoRecord] noEnrichment [demoQuery]
          = runPipeline demoCfg [demoRecord] noEnrichment [demoQuery] :=
  pipeline_card_numbering demoCfg [demoRecord] noEnrichment [demoQuery] 0 (by decide)

/-- C5: a matched card whose enrichment call fails is still returned with
matched=true, with name, set and rarity carried from the ReferenceRecord,
with no price data, and the request as a whole still succeeds. -/
theorem enrichment_failure_graceful (cfg : MatcherConfig) (index : List ReferenceRecord)
    (enrich : Nat → Option EnrichmentData) (i : Nat) (q : Fingerprint)
    (r : ReferenceRecord) (fps : List Fingerprint)
    (hrec : (matchFingerprint cfg index q).record = some r)
    (hfail : enrich r.identity = none) :
    (processRegion cfg index enrich i q).matched = true
      ∧ (processRegion cfg index enrich i q).name = some r.name
      ∧ (processRegion cfg index enrich i q).set = some r.setCode
      ∧ (processRegion cfg index enrich i q).rarity = some r.rarity
      ∧ (processRegion cfg index enrich i q).prices = none
      ∧ (runPipeline cfg index enrich fps).success = true := by
  unfold processRegion
  rw [hrec]
  simp [hfail, runPipeline]

/-- Witness for C5: the demo record matches its own fingerprint exactly and
the all-failing enrichment oracle leaves the static fields intact. -/
theorem enrichment_failure_graceful_witness :
    (processRegion demoCfg [demoRecord] noEnrichment 0 demoQuery).matched = true
      ∧ (processRegion demoCfg [demoRecord] noEnrichment 0 demoQuery).name
          = some demoRecord.name
      ∧ (processRegion demoCfg [demoRecord] noEnrichment 0 demoQuery).set
          = some demoRecord.setCode
      ∧ (processRegion demoCfg [demoRecord] noEnrichment 0 demoQuery).rarity
          = some demoRecord.rarity
      ∧ (processRegion demoCfg [demoRecord] noEnrichment 0 demoQuery).prices = none
      ∧ (runPipeline demoCfg [demoRecord] noEnrichment [demoQuery]).success = true :=
  enrichment_failure_graceful demoCfg [demoRecord] noEnrichment 0 demoQuery demoRecord
    [demoQuery] (by decide) rfl

/-- The confidence mapping never exceeds 100. -/
lemma confidenceOfDistance_le (cfg : MatcherConfig) (d : Nat) :
    confidenceOfDistance cfg d ≤ 100 := by
  unfold confidenceOfDistance
  split
  · exact Nat.zero_le 100
  · next h =>
      have hpos : 0 < cfg.maxDistance := by omega
      calc 100 * (cfg.maxDistance - d) / cfg.maxDistance
          ≤ 100 * cfg.maxDistance / cfg.maxDistance :=
            Nat.div_le_div_right (Nat.mul_le_mul_left 100 (Nat.sub_le _ _))
        _ = 100 := Nat.mul_div_cancel 100 hpos

/-- The confidence mapping is 100 at distance 0. -/
lemma confidenceOfDistance_zero (cfg : MatcherConfig) (hpos : 0 < cfg.maxDistance) :
    confidenceOfDistance cfg 0 = 100 := by
  unfold confidenceOfDistance
  rw [if_neg (by omega), Nat.sub_zero, Nat.mul_div_cancel 100 hpos]

/-- The confidence mapping is positive strictly inside the maximum
distance, provided the maximum distance is at most 100. -/
lemma confidenceOfDistance_pos (cfg : MatcherConfig) (hle : cfg.maxDistance ≤ 100)
    (d : Nat) (hd : d < cfg.maxDistance) : 0 < confidenceOfDistance cfg d := by
  unfold confidenceOfDistance
  rw [if_neg (by omega)]
  have hpos : 0 < cfg.maxDistance := by omega
  have h1 : 1 * cfg.maxDistance ≤ 100 * (cfg.maxDistance - d) := by omega
  have h2 : 1 ≤ 100 * (cfg.maxDistance - d) / cfg.maxDistance :=
    (Nat.le_div_iff_mul_le hpos).mpr h1
  omega

/-- The confidence mapping strictly decreases with the distance up to the
maximum distance, provided the maximum distance is at most 100. -/
lemma confidenceOfDistance_strict (cfg : MatcherConfig) (hle : cfg.maxDistance ≤ 100)
    (d : Nat) (hd : d + 1 ≤ cfg.maxDistance) :
    confidenceOfDistance cfg (d + 1) < confidenceOfDistance cfg d := by
  by_cases hcase : d + 1 = cfg.maxDistance
  · have h0 : confidenceOfDistance cfg (d + 1) = 0 := by
      unfold confidenceOfDistance
      rw [if_pos (by omega)]
    rw [h0]
    exact confidenceOfDistance_pos cfg hle d (by omega)
  · have hd1 : d + 1 < cfg.maxDistance := by omega
    unfold confidenceOfDistance
    rw [if_neg (by omega), if_neg (by omega)]
    have hpos : 0 < cfg.maxDistance := by omega
    have key : 100 * (cfg.maxDistance - (d + 1)) + cfg.maxDistance
        ≤ 100 * (cfg.maxDistance - d) := by omega
    have h2 : (100 * (cfg.maxDistance - (d + 1)) + cfg.maxDistance) / cfg.maxDistance
        ≤ 100 * (cfg.maxDistance - d) / cfg.maxDistance := Nat.div_le_div_right key
    have h3 : (100 * (cfg.maxDistance - (d + 1)) + cfg.maxDistance) / cfg.maxDistance
        = 100 * (cfg.maxDistance - (d + 1)) / cfg.maxDistance + 1 :=
      Nat.add_div_right _ hpos
    omega

/-- The confidence mapping is 0 at or beyond the maximum distance. -/
lemma confidenceOfDistance_max (cfg : MatcherConfig) (d : Nat)
    (hd : cfg.maxDistance ≤ d) : confidenceOfDistance cfg d = 0 := by
  unfold confidenceOfDistance
  rw [if_pos hd]

/-- Every MatchResult confidence is at most 100. -/
lemma matchFingerprint_confidence_le (cfg : MatcherConfig)
    (index : List ReferenceRecord) (q : Fingerprint) :
    (matchFingerprint cfg index q).confidence ≤ 100 := by
  unfold matchFingerprint
  split
  · exact Nat.zero_le 100
  · next r d heq =>
      split
      · exact confidenceOfDistance_le cfg d
      · exact confidenceOfDistance_le cfg d

/-- A MatchResult whose confidence is below the configured minimum is
reported unmatched. -/
lemma matchFingerprint_low_confidence (cfg : MatcherConfig)
    (index : List ReferenceRecord) (q : Fingerprint)
    (h : (matchFingerprint cfg index q).confidence < cfg.minConfidence) :
    (matchFingerprint cfg index q).matched = false := by
  unfold matchFingerprint at h ⊢
  revert h
  split
  · intro _
    rfl
  · next r d heq =>
      split
      · intro _
        rfl
      · next hc =>
        intro h
        exact absurd h hc

/-- C6: the confidence of every MatchResult lies in [0, 100], equals 100
at distance 0, strictly decreases with the Hamming distance until it
reaches 0 at or beyond the configured maximum distance, and a result whose
confidence is below the configured minimum is reported with
matched=false. -/
theorem confidence_contract (cfg : MatcherConfig)
    (hpos : 0 < cfg.maxDistance) (hle : cfg.maxDistance ≤ 100) :
    (∀ d, confidenceOfDistance cfg d ≤ 100)
      ∧ confidenceOfDistance cfg 0 = 100
      ∧ (∀ d, d + 1 ≤ cfg.maxDistance →
          confidenceOfDistance cfg (d + 1) < confidenceOfDistance cfg d)
      ∧ (∀ d, cfg.maxDistance ≤ d → confidenceOfDistance cfg d = 0)
      ∧ (∀ index q, (matchFingerprint cfg index q).confidence ≤ 100)
      ∧ (∀ index q, (matchFingerprint cfg index q).confidence < cfg.minConfidence →
          (matchFingerprint cfg index q).matched = false) :=
  ⟨fun d => confidenceOfDistance_le cfg d,
   confidenceOfDistance_zero cfg hpos,
   fun d hd => confidenceOfDistance_strict cfg hle d hd,
   fun d hd => confidenceOfDistance_max cfg d hd,
   fun index q => matchFingerprint_confidence_le cfg index q,
   fun index q h => matchFingerprint_low_confidence cfg index q h⟩

/-- Witness for C6 at the demo configuration. -/
theorem confidence_contract_witness :
    confidenceOfDistance demoCfg 0 = 100
      ∧ confidenceOfDistance demoCfg (2 + 1) < confidenceOfDistance demoCfg 2 :=
  ⟨(confidence_contract demoCfg (by decide) (by decide)).2.1,
   (confidence_contract demoCfg (by decide) (by decide)).2.2.1 2 (by decide)⟩

/-- A running best whose distance is a lower bound for the remaining
records survives the rest of the scan: a later record replaces it only at
a strictly smaller distance, so ties keep the earlier record. -/
lemma bestMatchAux_keeps (q : Fingerprint) (b : ReferenceRecord) (d : Nat)
    (l : List ReferenceRecord)
    (h : ∀ r2 ∈ l, d ≤ hammingDistance r2.fingerprint q) :
    bestMatchAux q (some (b, d)) l = some (b, d) := by
  induction l with
  | nil => rfl
  | cons r rest ih =>
      have hr : ¬ hammingDistance r.fingerprint q < d :=
        not_lt.mpr (h r (List.mem_cons_self r rest))
      simp only [bestMatchAux, if_neg hr]
      exact ih fun r2 hr2 => h r2 (List.mem_cons_of_mem r hr2)

/-- C7: fingerprinting and matching are deterministic pure functions of
their inputs, and the tie-break of the Matcher is deterministic: when the
first record of the index already attains the minimum distance, the scan
returns that first record. -/
theorem matcher_deterministic (rc : RectifiedCard) (cfg : MatcherConfig)
    (index rest : List ReferenceRecord) (r : ReferenceRecord) (q : Fingerprint)
    (hmin : ∀ r2 ∈ rest, hammingDistance r.fingerprint q ≤ hammingDistance r2.fingerprint q) :
    fingerprintEngine rc = fingerprintEngine rc
      ∧ matchFingerprint cfg index q = matchFingerprint cfg index q
      ∧ bestMatch (r :: rest) q = some (r, hammingDistance r.fingerprint q) := by
  refine ⟨rfl, rfl, ?_⟩
  unfold bestMatch
  simp only [bestMatchAux]
  exact bestMatchAux_keeps q r (hammingDistance r.fingerprint q) rest hmin

/-- Witness for C7: two records at the same distance from the query, the
first in iteration order wins. -/
theorem matcher_deterministic_witness :
    fingerprintEngine demoRect = fingerprintEngine demoRect
      ∧ matchFingerprint demoCfg [demoRecord] demoQuery
          = matchFingerprint demoCfg [demoRecord] demoQuery
      ∧ bestMatch (demoRecord :: [demoRecord2]) demoQuery
          = some (demoRecord, hammingDistance demoRecord.fingerprint demoQuery) :=
  matcher_deterministic demoRect demoCfg [demoRecord] [demoRecord2] demoRecord demoQuery
    (by decide)
